import Mathlib

/-!
Verification of the pubsub tracer (tracer.go): the non-blocking event sink
base (basicTracer), the file-sink write loops (JSONTracer, PBTracer), and
the remote sink (RemoteTracer) with its batching, reconnection and
teardown logic.  Trace events are opaque serializable records; they are
modelled by a type parameter.
-/

namespace Pubsub

/-- State of the capacity-1 wake channel (the field ch of basicTracer,
made with capacity 1).  The pending count is the number of buffered
wake tokens; closed records whether Close has closed the channel. -/
structure WakeChan where
  pending : Nat
  closed : Bool
deriving Repr, DecidableEq

/-- Capacity of the wake channel: the source makes it with capacity 1. -/
def wakeCap : Nat := 1

/-- Outcome of a producer-side operation, as observed by the caller:
normal return, or a run-time panic (Go semantics: a send on a closed
channel panics, even inside a select with a default clause). -/
inductive TraceOutcome where
  | ok
  | panicked
deriving Repr, DecidableEq

/-- Go semantics of the statement
select with a send of unit on ch and a default clause,
in Trace of basicTracer: a send on a closed channel can always proceed
and panics when chosen, so the default clause is not taken when the
channel is closed; on an open channel with a free slot the token is
deposited; on an open full channel the send would block, so the default
clause runs and nothing changes. -/
def trySendWake (c : WakeChan) : WakeChan × TraceOutcome :=
  if c.closed then (c, TraceOutcome.panicked)
  else if c.pending < wakeCap then ({ c with pending := c.pending + 1 }, TraceOutcome.ok)
  else (c, TraceOutcome.ok)

/-- The shared state of basicTracer: the wake channel ch and the
mutex-guarded event buffer buf.  The mutex serializes appends and swaps,
so program behaviours are sequences of atomic operations on this state. -/
structure BasicTracer (α : Type) where
  ch : WakeChan
  buf : List α
deriving Repr, DecidableEq

/-- The initial basicTracer state as constructed by the sink
constructors: an open, empty wake channel and an empty buffer. -/
def BasicTracer.init (α : Type) : BasicTracer α :=
  { ch := { pending := 0, closed := false }, buf := [] }

/-- basicTracer.Trace: append the event to the buffer under the mutex,
then attempt a non-blocking send on the wake channel.  Returns the new
state and what the caller observes. -/
def Trace {α : Type} (t : BasicTracer α) (evt : α) : BasicTracer α × TraceOutcome :=
  let t1 : BasicTracer α := { t with buf := t.buf ++ [evt] }
  let r := trySendWake t1.ch
  ({ t1 with ch := r.1 }, r.2)

/-- basicTracer.Close: close the wake channel. -/
def Close {α : Type} (t : BasicTracer α) : BasicTracer α :=
  { t with ch := { t.ch with closed := true } }

/-- The buffer swap performed by every write loop under the mutex:
tmp gets the live buffer, the live buffer is replaced by the empty
scratch (the scratch storage truncated to length zero), and tmp becomes
the batch the loop drains.  Returns the new tracer state and the batch. -/
def swapBuf {α : Type} (t : BasicTracer α) : BasicTracer α × List α :=
  ({ t with buf := [] }, t.buf)

/-- An atomic operation on the shared tracer state: a producer call of
Trace with some event, or the write loop swapping buffers. -/
inductive SinkOp (α : Type) where
  | trace (evt : α)
  | swap
deriving Repr, DecidableEq

/-- A run record: the tracer state together with the batches the write
loop has swapped out so far, oldest first. -/
structure SinkRun (α : Type) where
  tr : BasicTracer α
  batches : List (List α)
deriving Repr, DecidableEq

/-- One atomic step of the interleaved producers / write-loop system. -/
def sinkStep {α : Type} (s : SinkRun α) : SinkOp α → SinkRun α
  | SinkOp.trace evt => { s with tr := (Trace s.tr evt).1 }
  | SinkOp.swap =>
      let r := swapBuf s.tr
      { tr := r.1, batches := s.batches ++ [r.2] }

/-- Run a sequence of atomic operations from the initial state. -/
def sinkRun {α : Type} (ops : List (SinkOp α)) : SinkRun α :=
  ops.foldl sinkStep { tr := BasicTracer.init α, batches := [] }

/-- The events enqueued by a sequence of operations, in call order. -/
def enqueued {α : Type} (ops : List (SinkOp α)) : List α :=
  ops.filterMap fun op =>
    match op with
    | SinkOp.trace evt => some evt
    | SinkOp.swap => none

/-- The drain phase shared by doWrite of JSONTracer and doWrite of
PBTracer: for each event of the swapped batch in order, run the
per-event encoder (Encode of the json encoder, or WriteMsg of the
delimited writer); on an encoder error, append a log line and keep
going.  Returns the records written to the stream and the log lines,
both in order. -/
def drainBatch {α : Type} (enc : α → Except String String) :
    List α → List String × List String
  | [] => ([], [])
  | evt :: rest =>
      let r := drainBatch enc rest
      match enc evt with
      | Except.ok s => (s :: r.1, r.2)
      | Except.error msg => (r.1, ("error writing event trace: " ++ msg) :: r.2)

/-- One reception on the wake channel as observed by a write loop: the
open flag returned by the receive (false once the channel is closed and
drained) and the contents of the live buffer grabbed by the swap that
follows the receive. -/
structure Reception (α : Type) where
  ok : Bool
  batch : List α
deriving Repr, DecidableEq

/-- The write loop of JSONTracer and PBTracer, parametric in the
per-event encoder, driven by the sequence of channel receptions: on
each reception it swaps and drains the batch; when the reception
reports the channel closed it drains the final batch, closes the
underlying writer and returns.  Result: records written, log lines,
and whether the writer was closed (the loop terminated). -/
def fileDoWrite {α : Type} (enc : α → Except String String) :
    List (Reception α) → List String × List String × Bool
  | [] => ([], [], false)
  | r :: rest =>
      let d := drainBatch enc r.batch
      if r.ok then
        let c := fileDoWrite enc rest
        (d.1 ++ c.1, d.2 ++ c.2.1, c.2.2)
      else (d.1, d.2, true)

/-- The receptions a file-sink write loop sees for a producer history
ops that is followed by Close: one ok reception per swap during the
run, then the closed-channel reception whose swap grabs the residual
buffer (every event traced before Close is still in some batch). -/
def closeReceptions {α : Type} (ops : List (SinkOp α)) : List (Reception α) :=
  (sinkRun ops).batches.map (fun b => { ok := true, batch := b }) ++
    [{ ok := false, batch := (sinkRun ops).tr.buf }]

/-- A concrete, invertible event encoder for witnesses: the event n is
written as n copies of the letter x. -/
def witEnc (n : Nat) : Except String String :=
  Except.ok (String.mk (List.replicate n 'x'))

/-- The matching decoder: read back the record length. -/
def witDec (s : String) : Option Nat :=
  some s.length

/-- A witness encoder that fails on the event 2 and otherwise behaves
like witEnc. -/
def witEncBad (n : Nat) : Except String String :=
  if n = 2 then Except.error "bad" else witEnc n

/-- The observable actions of one iteration of doWrite of RemoteTracer,
in program order: the WriteMsg of the batch container message, the
gzip Flush, the stream Reset, the gzip Close, the graceful FullClose,
the openStream call after a failure, and the gzip Reset onto the fresh
stream. -/
inductive RemoteAction (α : Type) where
  | writeBatchMsg (batch : List α)
  | flushGzip
  | resetStream
  | closeGzip
  | fullCloseStream
  | openStreamCall
  | resetGzip
deriving Repr, DecidableEq

/-- The inputs determining one iteration of the write loop of
RemoteTracer: the open flag of the channel reception, the batch
obtained by the swap (after the one-second accumulation sleep), and
whether the WriteMsg, the gzip Flush, and the reopening openStream
call fail in this iteration.  The iteration is entered with the err
variable nil: any earlier error either terminated the loop or was
cleared by the successful openStream that preceded this iteration. -/
structure RemoteIter (α : Type) where
  ok : Bool
  batch : List α
  writeErr : Bool
  flushErr : Bool
  reopenErr : Bool
deriving Repr, DecidableEq

/-- The batch phase of one iteration of doWrite of RemoteTracer: if
the swapped batch is empty, jump to the end label with err still nil;
otherwise write the container message and, if that succeeded, flush
the gzip stream.  Returns the actions performed and the value of the
err test at the end label. -/
def remoteBatchPhase {α : Type} (it : RemoteIter α) : List (RemoteAction α) × Bool :=
  if it.batch.isEmpty then ([], false)
  else if it.writeErr then ([RemoteAction.writeBatchMsg it.batch], true)
  else if it.flushErr then
    ([RemoteAction.writeBatchMsg it.batch, RemoteAction.flushGzip], true)
  else ([RemoteAction.writeBatchMsg it.batch, RemoteAction.flushGzip], false)

/-- The end label of one iteration of doWrite of RemoteTracer: when the
channel reception reported closed, tear down (reset on error, otherwise
close the gzip stream and fully close the stream) and terminate; when
still open and err is set, reset the stream, reopen it (terminating if
the reopen fails) and reset the gzip writer onto it; otherwise loop. -/
def remoteEndPhase (α : Type) (ok errFlag reopenErr : Bool) :
    List (RemoteAction α) × Bool :=
  if !ok then
    (if errFlag then ([RemoteAction.resetStream], true)
     else ([RemoteAction.closeGzip, RemoteAction.fullCloseStream], true))
  else if errFlag then
    if reopenErr then ([RemoteAction.resetStream, RemoteAction.openStreamCall], true)
    else ([RemoteAction.resetStream, RemoteAction.openStreamCall,
            RemoteAction.resetGzip], false)
  else ([], false)

/-- One whole iteration of doWrite of RemoteTracer: batch phase then
end label.  Returns the actions in order and whether the loop
terminated in this iteration. -/
def remoteIterStep {α : Type} (it : RemoteIter α) : List (RemoteAction α) × Bool :=
  let b := remoteBatchPhase it
  let e := remoteEndPhase α it.ok b.2 it.reopenErr
  (b.1 ++ e.1, e.2)

/-- Whether one iteration ends with the err variable set: a nonempty
batch whose WriteMsg or gzip Flush failed. -/
def iterErr {α : Type} (it : RemoteIter α) : Bool :=
  !it.batch.isEmpty && (it.writeErr || it.flushErr)

/-- Recognizer for the message-write action. -/
def isWriteAct {α : Type} : RemoteAction α → Bool
  | RemoteAction.writeBatchMsg _ => true
  | _ => false

/-- The environment of one attempt of the retry loop in connect of
RemoteTracer: whether the Connect call (with its one-minute timeout)
fails, whether the parent context is already cancelled at the error
check, and whether the parent context is cancelled during the
one-minute backoff wait. -/
structure AttemptEnv where
  attemptFails : Bool
  cancelledAtCheck : Bool
  cancelledInBackoff : Bool
deriving Repr, DecidableEq

/-- Result of a retry loop: success, the attempt error surfaced
immediately because the parent context was found cancelled, the
context error surfaced from the backoff select, or still pending
(the modelled attempt list was exhausted with the loop continuing). -/
inductive RetryResult where
  | ok
  | errAttempt
  | errCtx
  | pending
deriving Repr, DecidableEq

/-- connect of RemoteTracer over a sequence of attempt environments.
Each failed attempt first checks the parent context (an error there is
returned immediately); otherwise the loop waits one minute (or returns
the context error if the context is cancelled during the wait) and
retries.  The second component counts the one-minute backoff waits
performed. -/
def connectRun : List AttemptEnv → RetryResult × Nat
  | [] => (RetryResult.pending, 0)
  | a :: rest =>
      if a.attemptFails then
        if a.cancelledAtCheck then (RetryResult.errAttempt, 0)
        else if a.cancelledInBackoff then (RetryResult.errCtx, 0)
        else
          let r := connectRun rest
          (r.1, r.2 + 1)
      else (RetryResult.ok, 0)

/-- The environment of one attempt of the retry loop in openStream of
RemoteTracer: the environments consumed by the inner connect call,
whether the NewStream call (with its one-minute timeout) fails, and
the two context-cancellation observations, as in AttemptEnv. -/
structure StreamEnv where
  conn : List AttemptEnv
  streamFails : Bool
  cancelledAtCheck : Bool
  cancelledInBackoff : Bool
deriving Repr, DecidableEq

/-- openStream of RemoteTracer over a sequence of attempt
environments: each round first runs connect (an error there is
returned at once), then attempts NewStream with the same
check-context, backoff-one-minute, retry policy as connect.  The
second component counts all one-minute backoff waits performed. -/
def openStreamRun : List StreamEnv → RetryResult × Nat
  | [] => (RetryResult.pending, 0)
  | a :: rest =>
      let c := connectRun a.conn
      match c.1 with
      | RetryResult.ok =>
          if a.streamFails then
            if a.cancelledAtCheck then (RetryResult.errAttempt, c.2)
            else if a.cancelledInBackoff then (RetryResult.errCtx, c.2)
            else
              let r := openStreamRun rest
              (r.1, c.2 + r.2 + 1)
          else (RetryResult.ok, c.2)
      | r => (r, c.2)

/-- An attempt environment whose Connect call succeeds at once. -/
def connOkEnv : AttemptEnv :=
  { attemptFails := false, cancelledAtCheck := false, cancelledInBackoff := false }

/-- An attempt environment whose Connect call fails with the parent
context alive throughout. -/
def connFailEnv : AttemptEnv :=
  { attemptFails := true, cancelledAtCheck := false, cancelledInBackoff := false }

/-- A stream environment that connects at once and opens the stream. -/
def streamOkEnv : StreamEnv :=
  { conn := [connOkEnv], streamFails := false, cancelledAtCheck := false,
    cancelledInBackoff := false }

/-- A stream environment that connects at once but fails NewStream with
the parent context alive throughout. -/
def streamFailEnv : StreamEnv :=
  { conn := [connOkEnv], streamFails := true, cancelledAtCheck := false,
    cancelledInBackoff := false }

/-- Witness iteration: closing, with a failed WriteMsg. -/
def closeFailIt : RemoteIter Nat :=
  { ok := false, batch := [3], writeErr := true, flushErr := false,
    reopenErr := false }

/-- Witness iteration: open, flush error, successful reopen. -/
def flushFailIt : RemoteIter Nat :=
  { ok := true, batch := [2], writeErr := false, flushErr := true,
    reopenErr := false }

/-- Witness iteration: closing with an empty batch and no errors. -/
def emptyBatchIt : RemoteIter Nat :=
  { ok := false, batch := [], writeErr := false, flushErr := false,
    reopenErr := false }

/-- An attempt environment cancelled at the post-failure check. -/
def cancelAtCheckEnv : AttemptEnv :=
  { attemptFails := true, cancelledAtCheck := true, cancelledInBackoff := false }

/-- An attempt environment cancelled during the backoff wait. -/
def cancelInBackoffEnv : AttemptEnv :=
  { attemptFails := true, cancelledAtCheck := false, cancelledInBackoff := true }

/-- A stream environment cancelled at the post-failure check. -/
def streamCancelEnv : StreamEnv :=
  { conn := [connOkEnv], streamFails := true, cancelledAtCheck := true,
    cancelledInBackoff := false }

/-- RemoteTracer: the basicTracer state plus the construction
arguments, stored as given (the context, the host and the peer info
are opaque to this subsystem). -/
structure RemoteTracer (Ctx Host Peer α : Type) where
  ctx : Ctx
  host : Host
  pi : Peer
  basic : BasicTracer α
deriving Repr, DecidableEq

/-- NewRemoteTracer: builds the tracer record, starts the write loop,
and returns the tracer with a nil error unconditionally; no connection
attempt happens here (connecting is deferred to openStream inside
doWrite).  The pair mirrors the Go return values: the tracer pointer
(some means non-nil) and the error (none means nil). -/
def NewRemoteTracer (Ctx Host Peer α : Type) (c : Ctx) (h : Host) (p : Peer) :
    Option (RemoteTracer Ctx Host Peer α) × Option String :=
  (some { ctx := c, host := h, pi := p, basic := BasicTracer.init α }, none)

/-! Theorems. -/

/-- Step-by-step form of the buffer-swap invariant, from an arbitrary
start state. -/
theorem sinkRun_foldl_inv {α : Type} (ops : List (SinkOp α)) (s : SinkRun α) :
    (ops.foldl sinkStep s).batches.flatten ++ (ops.foldl sinkStep s).tr.buf
      = s.batches.flatten ++ s.tr.buf ++ enqueued ops := by
  induction ops generalizing s with
  | nil => simp [enqueued]
  | cons op rest ih =>
    cases op with
    | trace evt =>
      simp only [List.foldl_cons, enqueued, List.filterMap_cons]
      rw [ih]
      simp [sinkStep, Trace, enqueued, List.append_assoc]
    | swap =>
      simp only [List.foldl_cons, enqueued, List.filterMap_cons]
      rw [ih]
      simp [sinkStep, swapBuf, enqueued, List.append_assoc]

/-- The buffer-swap invariant for runs from the initial state: batches
plus the residual buffer are exactly the enqueued events in order. -/
theorem sinkRun_inv {α : Type} (ops : List (SinkOp α)) :
    (sinkRun ops).batches.flatten ++ (sinkRun ops).tr.buf = enqueued ops := by
  have h := sinkRun_foldl_inv ops { tr := BasicTracer.init α, batches := [] }
  simpa [sinkRun, BasicTracer.init] using h

/-- C1: For every single sink and every sequence of events enqueued via
Trace, interleaved in any way with buffer swaps by the write loop, the
swapped-out batches followed by the residual buffer are exactly the
enqueued events, each exactly once, in enqueue order: no duplication and
no reordering, regardless of when swaps occur relative to appends. -/
theorem trace_swap_exact_once_in_order {α : Type} (ops : List (SinkOp α)) :
    (sinkRun ops).batches.flatten ++ (sinkRun ops).tr.buf = enqueued ops :=
  sinkRun_inv ops

/-- C3, failing-input evaluation: calling Trace after Close panics.  In
Go, a send on a closed channel can proceed inside a select even when a
default clause is present, and proceeding panics; so the non-blocking
wake send in Trace panics once Close has closed the channel, and the
caller observes abnormal termination.  This contradicts the propagation
policy that producers never observe any error from Trace. -/
theorem trace_after_close_panics :
    (Trace (Close (BasicTracer.init Nat)) 0).2 = TraceOutcome.panicked := by
  decide

/-- C4: at most one pending wake is ever outstanding.  If a Trace call
finds the capacity-1 slot already full, the wake-channel state is left
completely unchanged (the wake is coalesced) and the event is
nevertheless appended to the buffer; on an open channel the full-slot
send returns normally (the default clause of the select runs, so the
producer is never blocked by the send); and Trace preserves the bound
pending less-or-equal wakeCap, so wakes never pile up. -/
theorem wake_coalesced {α : Type} (t : BasicTracer α) (evt : α) :
    (t.ch.pending = wakeCap →
      (Trace t evt).1.ch = t.ch ∧ (Trace t evt).1.buf = t.buf ++ [evt]) ∧
    (t.ch.closed = false → t.ch.pending = wakeCap →
      (Trace t evt).2 = TraceOutcome.ok) ∧
    (t.ch.pending ≤ wakeCap → (Trace t evt).1.ch.pending ≤ wakeCap) := by
  refine ⟨fun hfull => ?_, fun hopen hfull => ?_, fun hle => ?_⟩
  · constructor
    · simp [Trace, trySendWake, hfull, wakeCap]
      cases hc : t.ch.closed <;> simp [hc]
    · simp [Trace, trySendWake]
  · simp [Trace, trySendWake, hopen, hfull, wakeCap]
  · by_cases hc : t.ch.closed
    · simp [Trace, trySendWake, hc, hle]
    · by_cases hp : t.ch.pending < wakeCap
      · simp [Trace, trySendWake, hc, hp]
        omega
      · simp [Trace, trySendWake, hc, hp, hle]

/-- C4 witness: concrete instance with a full wake slot. -/
theorem wake_coalesced_witness :
    (Trace ({ ch := { pending := 1, closed := false }, buf := [5] } : BasicTracer Nat)
        7).1.ch = { pending := 1, closed := false } ∧
    (Trace ({ ch := { pending := 1, closed := false }, buf := [5] } : BasicTracer Nat)
        7).1.buf = [5, 7] ∧
    (Trace ({ ch := { pending := 1, closed := false }, buf := [5] } : BasicTracer Nat)
        7).2 = TraceOutcome.ok := by
  have h := wake_coalesced ({ ch := { pending := 1, closed := false }, buf := [5] } :
    BasicTracer Nat) 7
  exact ⟨(h.1 rfl).1, (h.1 rfl).2, h.2.1 rfl rfl⟩

theorem drainBatch_append {α : Type} (enc : α → Except String String)
    (l1 l2 : List α) :
    drainBatch enc (l1 ++ l2) =
      ((drainBatch enc l1).1 ++ (drainBatch enc l2).1,
        (drainBatch enc l1).2 ++ (drainBatch enc l2).2) := by
  induction l1 with
  | nil => simp [drainBatch]
  | cons e rest ih =>
    cases henc : enc e <;>
      simp [List.cons_append, drainBatch, henc, ih]

theorem fileDoWrite_batches_then_close {α : Type} (enc : α → Except String String)
    (bs : List (List α)) (residual : List α) :
    fileDoWrite enc (bs.map (fun b => { ok := true, batch := b }) ++
        [{ ok := false, batch := residual }]) =
      ((drainBatch enc (bs.flatten ++ residual)).1,
        (drainBatch enc (bs.flatten ++ residual)).2, true) := by
  induction bs with
  | nil => simp [fileDoWrite]
  | cons b rest ih =>
    simp [fileDoWrite, ih, List.flatten_cons, List.append_assoc, drainBatch_append]

/-- C2: for a JSON file sink on which exactly the events A, B, C are
enqueued via Trace (in any interleaving with write-loop swaps) and then
Close is called, the write loop terminates having written exactly three
records that decode to A, B and C in that order, with no error logged,
and the underlying writer is closed. -/
theorem json_close_scenario {α : Type} (enc : α → Except String String)
    (dec : String → Option α) (A B C : α) (ops : List (SinkOp α))
    (henq : enqueued ops = [A, B, C])
    (hrt : ∀ e ∈ [A, B, C], ∃ s, enc e = Except.ok s ∧ dec s = some e) :
    ((fileDoWrite enc (closeReceptions ops)).1.map dec = [some A, some B, some C]) ∧
    (fileDoWrite enc (closeReceptions ops)).2.1 = [] ∧
    (fileDoWrite enc (closeReceptions ops)).2.2 = true := by
  have hall : (sinkRun ops).batches.flatten ++ (sinkRun ops).tr.buf = [A, B, C] :=
    (sinkRun_inv ops).trans henq
  obtain ⟨sA, hencA, hdecA⟩ := hrt A (by simp)
  obtain ⟨sB, hencB, hdecB⟩ := hrt B (by simp)
  obtain ⟨sC, hencC, hdecC⟩ := hrt C (by simp)
  rw [closeReceptions, fileDoWrite_batches_then_close, hall]
  simp [drainBatch, hencA, hencB, hencC, hdecA, hdecB, hdecC]

/-- C2 witness: a concrete run with events 1, 2, 3 and the invertible
length encoder, one swap happening between the second and the third
Trace. -/
theorem json_close_scenario_witness :
    ((fileDoWrite witEnc
        (closeReceptions [SinkOp.trace 1, SinkOp.trace 2, SinkOp.swap,
          SinkOp.trace 3])).1.map witDec = [some 1, some 2, some 3]) ∧
    (fileDoWrite witEnc
        (closeReceptions [SinkOp.trace 1, SinkOp.trace 2, SinkOp.swap,
          SinkOp.trace 3])).2.1 = [] ∧
    (fileDoWrite witEnc
        (closeReceptions [SinkOp.trace 1, SinkOp.trace 2, SinkOp.swap,
          SinkOp.trace 3])).2.2 = true := by
  exact json_close_scenario witEnc witDec
    1 2 3 [SinkOp.trace 1, SinkOp.trace 2, SinkOp.swap, SinkOp.trace 3]
    (by decide)
    (by
      intro e he
      refine ⟨String.mk (List.replicate e 'x'), rfl, ?_⟩
      fin_cases he <;> decide)

/-- C9: in the file-sink write loops (JSON and length-delimited
protobuf, both instances of fileDoWrite via their encoder), an encode
failure for one event is logged and aborts neither the batch nor the
loop: the records written for a batch around a failing event are
exactly the successful encodings before and after it, the failure is
logged in position, and the loop goes on to process the remaining
receptions unchanged. -/
theorem encode_failure_nonfatal {α : Type} (enc : α → Except String String)
    (pre suf : List α) (e : α) (msg : String) (he : enc e = Except.error msg)
    (rest : List (Reception α)) :
    (drainBatch enc (pre ++ e :: suf) =
      ((drainBatch enc pre).1 ++ (drainBatch enc suf).1,
        (drainBatch enc pre).2 ++ ("error writing event trace: " ++ msg) ::
          (drainBatch enc suf).2)) ∧
    (fileDoWrite enc ({ ok := true, batch := pre ++ e :: suf } :: rest) =
      ((drainBatch enc (pre ++ e :: suf)).1 ++ (fileDoWrite enc rest).1,
        (drainBatch enc (pre ++ e :: suf)).2 ++ (fileDoWrite enc rest).2.1,
        (fileDoWrite enc rest).2.2)) := by
  constructor
  · rw [drainBatch_append]
    simp [drainBatch, he]
  · simp [fileDoWrite]

/-- C9 witness: batch with a failing middle event; the later event is
still written and the loop continues into the next reception. -/
theorem encode_failure_nonfatal_witness :
    (drainBatch witEncBad [1, 2, 3] =
      (["x", "xxx"], ["error writing event trace: bad"])) ∧
    (fileDoWrite witEncBad
        [{ ok := true, batch := [1, 2, 3] }, { ok := false, batch := [4] }] =
      (["x", "xxx", "xxxx"], ["error writing event trace: bad"], true)) := by
  have h := encode_failure_nonfatal witEncBad
    [1] [3] 2 "bad" (by rfl) [{ ok := false, batch := [4] }]
  constructor
  · exact h.1.trans (by decide)
  · exact h.2.trans (by decide)

theorem remoteBatchPhase_snd {α : Type} (it : RemoteIter α) :
    (remoteBatchPhase it).2 = iterErr it := by
  by_cases hb : it.batch.isEmpty <;> by_cases hw : it.writeErr <;>
    by_cases hf : it.flushErr <;> simp [remoteBatchPhase, iterErr, hb, hw, hf]

/-- C5: when the write loop of RemoteTracer observes the closed-signal
indication, it terminates, and the teardown is decided by the err test
at the end label: if the last WriteMsg or Flush of this iteration
failed, the stream is reset; otherwise (including the skipped empty
batch, where err stays nil) the gzip stream is closed cleanly and the
stream gets a graceful full close. -/
theorem close_teardown {α : Type} (it : RemoteIter α) (hok : it.ok = false) :
    (remoteIterStep it).2 = true ∧
    (remoteIterStep it).1 = (remoteBatchPhase it).1 ++
      (if iterErr it then [RemoteAction.resetStream]
        else [RemoteAction.closeGzip, RemoteAction.fullCloseStream]) := by
  have h2 := remoteBatchPhase_snd it
  constructor
  · simp [remoteIterStep, remoteEndPhase, hok]
    by_cases he : iterErr it <;> simp [h2, he]
  · simp [remoteIterStep, remoteEndPhase, hok]
    by_cases he : iterErr it <;> simp [h2, he]

/-- C5 witness: closing iteration whose WriteMsg failed; the stream is
reset and the loop terminates. -/
theorem close_teardown_witness :
    (remoteIterStep closeFailIt).1 =
      [RemoteAction.writeBatchMsg [3], RemoteAction.resetStream] ∧
    (remoteIterStep closeFailIt).2 = true := by
  have h := close_teardown closeFailIt rfl
  exact ⟨h.2.trans (by decide), h.1⟩

/-- C6: any WriteMsg or Flush error for a nonempty batch in a
non-closing iteration makes the loop reset the current stream, call
openStream for a fresh one (terminating only if that call fails) and
reset the gzip writer onto it; the failed batch is written at most
once in the iteration (it is dropped, never retried). -/
theorem write_error_reconnect {α : Type} (it : RemoteIter α) (hok : it.ok = true)
    (herr : iterErr it = true) :
    ((remoteIterStep it).1 = (remoteBatchPhase it).1 ++
        RemoteAction.resetStream :: RemoteAction.openStreamCall ::
          (if it.reopenErr then [] else [RemoteAction.resetGzip])) ∧
    ((remoteIterStep it).2 = it.reopenErr) ∧
    ((remoteIterStep it).1.filter isWriteAct =
      [RemoteAction.writeBatchMsg it.batch]) := by
  rcases it with ⟨ok, batch, wErr, fErr, rErr⟩
  simp only at hok
  subst hok
  cases batch with
  | nil => simp [iterErr] at herr
  | cons b bs =>
    cases wErr with
    | false =>
      cases fErr with
      | false => simp [iterErr] at herr
      | true =>
        cases rErr <;>
          simp [remoteIterStep, remoteBatchPhase, remoteEndPhase, isWriteAct,
            List.filter]
    | true =>
      cases rErr <;>
        simp [remoteIterStep, remoteBatchPhase, remoteEndPhase, isWriteAct,
          List.filter]

/-- C6 witness: flush error in a non-closing iteration with a
successful reopen. -/
theorem write_error_reconnect_witness :
    (remoteIterStep flushFailIt).1 =
      [RemoteAction.writeBatchMsg [2], RemoteAction.flushGzip,
        RemoteAction.resetStream, RemoteAction.openStreamCall,
        RemoteAction.resetGzip] ∧
    (remoteIterStep flushFailIt).2 = false ∧
    (remoteIterStep flushFailIt).1.filter isWriteAct =
      [RemoteAction.writeBatchMsg [2]] := by
  have h := write_error_reconnect flushFailIt rfl (by decide)
  exact ⟨h.1.trans (by decide), h.2.1, h.2.2⟩

/-- C8: an iteration whose swapped batch is empty performs no network
I/O at all: no container-message write, no gzip flush, and no change
to the stream (no reset, no reopen, no gzip reset); it goes straight
to the close check at the end label with err nil. -/
theorem empty_batch_no_io {α : Type} (it : RemoteIter α) (hempty : it.batch = []) :
    ((remoteIterStep it).1 = (remoteEndPhase α it.ok false it.reopenErr).1) ∧
    (∀ b, RemoteAction.writeBatchMsg b ∉ (remoteIterStep it).1) ∧
    RemoteAction.flushGzip ∉ (remoteIterStep it).1 ∧
    RemoteAction.resetStream ∉ (remoteIterStep it).1 ∧
    RemoteAction.openStreamCall ∉ (remoteIterStep it).1 ∧
    RemoteAction.resetGzip ∉ (remoteIterStep it).1 := by
  have hb : remoteBatchPhase it = ([], false) := by
    simp [remoteBatchPhase, hempty]
  cases ho : it.ok <;> simp [remoteIterStep, hb, remoteEndPhase, ho]

/-- C8 witness: empty batch in a closing iteration; only the clean
close-check teardown happens. -/
theorem empty_batch_no_io_witness :
    (remoteIterStep emptyBatchIt).1 = (remoteEndPhase Nat false false false).1 ∧
    RemoteAction.writeBatchMsg [9] ∉ (remoteIterStep emptyBatchIt).1 ∧
    RemoteAction.flushGzip ∉ (remoteIterStep emptyBatchIt).1 ∧
    RemoteAction.resetStream ∉ (remoteIterStep emptyBatchIt).1 := by
  have h := empty_batch_no_io emptyBatchIt rfl
  exact ⟨h.1, h.2.1 [9], h.2.2.1, h.2.2.2.1⟩

/-- C7: connect and openStream of RemoteTracer retry a failed attempt
after a fixed one-minute backoff for as long as the parent context is
alive (any number of failures before a success still yields success,
with exactly one backoff wait per failure), and once the parent
context is cancelled the failure is surfaced immediately, with no
further backoff and no retry, whether cancellation is seen at the
error check or during the backoff wait. -/
theorem backoff_retry_policy :
    (∀ (n : Nat) (rest : List AttemptEnv),
      connectRun (List.replicate n connFailEnv ++ connOkEnv :: rest) =
        (RetryResult.ok, n)) ∧
    (∀ (a : AttemptEnv) (rest : List AttemptEnv),
      a.attemptFails = true → a.cancelledAtCheck = true →
        connectRun (a :: rest) = (RetryResult.errAttempt, 0)) ∧
    (∀ (a : AttemptEnv) (rest : List AttemptEnv),
      a.attemptFails = true → a.cancelledAtCheck = false →
        a.cancelledInBackoff = true →
          connectRun (a :: rest) = (RetryResult.errCtx, 0)) ∧
    (∀ (n : Nat) (rest : List StreamEnv),
      openStreamRun (List.replicate n streamFailEnv ++ streamOkEnv :: rest) =
        (RetryResult.ok, n)) ∧
    (∀ (a : StreamEnv) (rest : List StreamEnv),
      connectRun a.conn = (RetryResult.ok, 0) → a.streamFails = true →
        a.cancelledAtCheck = true →
          openStreamRun (a :: rest) = (RetryResult.errAttempt, 0)) := by
  refine ⟨?_, ?_, ?_, ?_, ?_⟩
  · intro n rest
    induction n with
    | zero => simp [connectRun, connOkEnv]
    | succ k ih =>
      have h1 : connFailEnv.attemptFails = true := rfl
      have h2 : connFailEnv.cancelledAtCheck = false := rfl
      have h3 : connFailEnv.cancelledInBackoff = false := rfl
      simp [List.replicate_succ, connectRun, h1, h2, h3, ih]
  · intro a rest hf hc
    simp [connectRun, hf, hc]
  · intro a rest hf hc hb
    simp [connectRun, hf, hc, hb]
  · intro n rest
    induction n with
    | zero => simp [openStreamRun, streamOkEnv, connectRun, connOkEnv]
    | succ k ih =>
      have hc : connectRun streamFailEnv.conn = (RetryResult.ok, 0) := rfl
      have h1 : streamFailEnv.streamFails = true := rfl
      have h2 : streamFailEnv.cancelledAtCheck = false := rfl
      have h3 : streamFailEnv.cancelledInBackoff = false := rfl
      simp [List.replicate_succ, openStreamRun, hc, h1, h2, h3, ih]
  · intro a rest hcr hf hc
    simp [openStreamRun, hcr, hf, hc]

/-- C7 witness: two connect failures then success with two backoff
waits; immediate error on cancellation at the check and in the
backoff; one stream-open failure then success; immediate stream-open
error on cancellation. -/
theorem backoff_retry_policy_witness :
    connectRun [connFailEnv, connFailEnv, connOkEnv] = (RetryResult.ok, 2) ∧
    connectRun [cancelAtCheckEnv, connOkEnv] = (RetryResult.errAttempt, 0) ∧
    connectRun [cancelInBackoffEnv] = (RetryResult.errCtx, 0) ∧
    openStreamRun [streamFailEnv, streamOkEnv] = (RetryResult.ok, 1) ∧
    openStreamRun [streamCancelEnv] = (RetryResult.errAttempt, 0) := by
  have h := backoff_retry_policy
  exact ⟨h.1 2 [],
    h.2.1 cancelAtCheckEnv [connOkEnv] rfl rfl,
    h.2.2.1 cancelInBackoffEnv [] rfl rfl rfl,
    h.2.2.2.1 1 [],
    h.2.2.2.2 streamCancelEnv [] (by rfl) rfl rfl⟩

/-- C10: NewRemoteTracer never fails: for every context, host and peer
target it returns a non-nil tracer and a nil error; no connection is
attempted during construction (connecting is deferred to the write
loop). -/
theorem new_remote_tracer_never_fails (Ctx Host Peer α : Type)
    (c : Ctx) (h : Host) (p : Peer) :
    (NewRemoteTracer Ctx Host Peer α c h p).1.isSome = true ∧
    (NewRemoteTracer Ctx Host Peer α c h p).2 = none := by
  simp [NewRemoteTracer]

end Pubsub
